import Mathlib

/-!
# Verification of the sundown temperature-scheduling engine

Shallow embedding of `src/sundown/gamma.py` and `src/sundown/scheduler.py`.

Modelling conventions:
* Python floats are modelled exactly: expressions that stay in rational
  arithmetic use `ℚ`; expressions involving `math.log`, `math.cos` or
  float exponentiation use `ℝ`.
* Python `int(x)` (truncation toward zero) is `int_trunc` on `ℚ` and
  `real_trunc` on `ℝ`.
* The ambient world at one call site (wall clock, sun-event provider,
  gamma backend) is an explicit `Env` record threaded through the
  scheduler functions; the scheduler's mutable attributes form `State`,
  and observable side effects are returned as a `List Event`.
-/

namespace Sundown

/-- Python `int(x)`: truncation toward zero, on rationals. -/
def int_trunc (q : ℚ) : ℤ := if 0 ≤ q then ⌊q⌋ else ⌈q⌉

/-- Python `int(x)`: truncation toward zero, on reals (used where the
expression being truncated involves transcendental functions). -/
noncomputable def real_trunc (x : ℝ) : ℤ := if 0 ≤ x then ⌊x⌋ else ⌈x⌉

/-! ## gamma.py -/

/-- Embedding of `gamma.get_temperature_for_time(hour, day_temp, night_temp)`.
`hour` is the fractional hour of day; the named constants of the source
(`morning_start = 6.0`, `morning_end = 8.0`, `evening_start = 18.0`,
`evening_end = 20.0`) are inlined. -/
def get_temperature_for_time (hour : ℚ) (day_temp night_temp : ℤ) : ℤ :=
  if 8 ≤ hour ∧ hour < 18 then
    day_temp
  else if hour < 6 ∨ 20 ≤ hour then
    night_temp
  else if 6 ≤ hour ∧ hour < 8 then
    int_trunc ((night_temp : ℚ) + ((day_temp : ℚ) - (night_temp : ℚ)) * ((hour - 6) / (8 - 6)))
  else
    int_trunc ((day_temp : ℚ) + ((night_temp : ℚ) - (day_temp : ℚ)) * ((hour - 18) / (20 - 18)))

/-- Embedding of `gamma._create_gamma_ramp(red, green, blue)`: a 3×256 table,
`ramp[channel][i] = min(65535, max(0, int(i * 256 * multipliers[channel])))`.
The table size 256 and the scale factor 256 are hardcoded in the source. -/
def _create_gamma_ramp (red green blue : ℚ) : List (List ℤ) :=
  [red, green, blue].map fun m =>
    (List.range 256).map fun i => min 65535 (max 0 (int_trunc ((i : ℚ) * 256 * m)))

/-- The per-entry formula the spec gives for `buildRamp` (spec §4.1, written
from the spec's words for comparison with `_create_gamma_ramp`):
`clamp(round(i * (65536/size) * rgb[c]), 0, 65535)`. -/
def buildRamp_spec_entry (m : ℚ) (size i : ℕ) : ℤ :=
  min 65535 (max 0 (round ((i : ℚ) * (65536 / (size : ℚ)) * m)))

/-- Embedding of `gamma.kelvin_to_rgb(kelvin)` (Tanner-Helland approximation).
Python float arithmetic is modelled over `ℝ`; `math.log` is `Real.log` and
float `**` is real `rpow`. The three components are returned in order
(red, green, blue). -/
noncomputable def kelvin_to_rgb (kelvin : ℕ) : ℝ × ℝ × ℝ :=
  let temp : ℝ := (kelvin : ℝ) / 100
  let red : ℝ :=
    if temp ≤ 66 then 1
    else max 0 (min 255 (329.698727446 * (temp - 60) ^ (-0.1332047592 : ℝ))) / 255
  let green0 : ℝ :=
    if temp ≤ 66 then
      (if 1 < temp then 99.4708025861 * Real.log temp - 161.1195681661 else 0)
    else 288.1221695283 * (temp - 60) ^ (-0.0755148492 : ℝ)
  let green : ℝ := max 0 (min 255 green0) / 255
  let blue : ℝ :=
    if 66 ≤ temp then 1
    else if temp ≤ 19 then 0
    else max 0 (min 255 (138.5177312231 * Real.log (temp - 10) - 305.0447927307)) / 255
  (red, green, blue)

/-- The arguments that `gamma.kelvin_to_rgb` passes to `math.log` along the
branches actually taken for the given input (instrumentation of the same
branch structure as `kelvin_to_rgb`). -/
noncomputable def kelvin_to_rgb_logArgs (kelvin : ℕ) : List ℝ :=
  let temp : ℝ := (kelvin : ℝ) / 100
  (if temp ≤ 66 then (if 1 < temp then [temp] else []) else []) ++
    (if 66 ≤ temp then [] else if temp ≤ 19 then [] else [temp - 10])

/-! ## scheduler.py -/

/-- Embedding of `scheduler._smooth_step(t)`. -/
noncomputable def _smooth_step (t : ℝ) : ℝ := (1 - Real.cos (t * Real.pi)) / 2

/-- The fields of an `astral.LocationInfo` that the scheduler reads:
only the timezone name (possibly empty, modelled as `none`); the
geographic observer is implicit in `Env.sun` below, since one scheduler
holds one fixed location. -/
structure LocationInfo where
  timezone : Option String
deriving DecidableEq

/-- A sunrise/sunset pair as the scheduler consumes it: the source converts
the provider's datetimes with `_datetime_to_hours` (hour + minute/60 +
second/3600), so each instant is carried as its fractional local hour. -/
structure SunTimes where
  sunrise : ℚ
  sunset : ℚ
deriving DecidableEq

/-- The ambient world at one scheduler call. `sysDate` is
`datetime.now().date()` (the system-local calendar date, encoded as a day
ordinal); `locDate` is the same instant's calendar date in the configured
location's timezone (it can lawfully differ from `sysDate` by one day);
`nowHour` is `_datetime_to_hours(datetime.now())`; `sun d` is the result
of `astral.sun.sun(location.observer, date=d, tzinfo=tz)` — `none` models
the call raising; `backendOk t` is the boolean returned by
`set_color_temperature(t)`. -/
structure Env where
  sysDate : ℤ
  locDate : ℤ
  nowHour : ℚ
  sun : ℤ → Option SunTimes
  backendOk : ℤ → Bool

/-- The constructor arguments of `SundownScheduler`, immutable afterwards. -/
structure Config where
  day_temp : ℤ
  night_temp : ℤ
  update_interval : ℚ
  location : Option LocationInfo
  transition_minutes : ℚ
deriving DecidableEq

/-- The mutable attributes of a `SundownScheduler`: `_running`,
`_current_temp`, `_sun_cache` / `_sun_cache_date`, and whether an
`_on_change` observer is registered. -/
structure State where
  running : Bool
  current_temp : Option ℤ
  sun_cache : Option SunTimes
  sun_cache_date : Option ℤ
  has_observer : Bool
deriving DecidableEq

/-- The state right after `SundownScheduler.__init__`. -/
def initState : State :=
  { running := false, current_temp := none, sun_cache := none
    sun_cache_date := none, has_observer := false }

/-- `SundownScheduler.on_change(callback)`. -/
def on_change (s : State) : State := { s with has_observer := true }

/-- Observable side effects of one scheduler call, in program order. -/
inductive Event where
  | providerCall (date : ℤ)
  | backendApply (temp : ℤ) (ok : Bool)
  | notify (temp : ℤ)
deriving DecidableEq

/-- Embedding of `SundownScheduler._get_sun_times`: returns `none` when no
location is configured; serves the cache when `_sun_cache_date == today`
(with `today = datetime.now().date()`, i.e. `env.sysDate`) and the cache is
non-None; otherwise invokes the provider, caching the result on success and
returning `none` on failure (the `except` branch leaves the cache alone). -/
def _get_sun_times (cfg : Config) (env : Env) (s : State) :
    State × List Event × Option SunTimes :=
  match cfg.location with
  | none => (s, [], none)
  | some _ =>
    if s.sun_cache_date = some env.sysDate ∧ s.sun_cache ≠ none then
      (s, [], s.sun_cache)
    else
      match env.sun env.sysDate with
      | some st =>
        ({ s with sun_cache := some st, sun_cache_date := some env.sysDate },
          [Event.providerCall env.sysDate], some st)
      | none => (s, [Event.providerCall env.sysDate], none)

/-- The value computation of `SundownScheduler._calculate_temperature`, once
`_get_sun_times` has produced `st`: sun-relative eased interpolation when sun
times are available, otherwise `get_temperature_for_time`. -/
noncomputable def _calculate_temperature_value (cfg : Config) (hour : ℚ)
    (st : Option SunTimes) : ℤ :=
  match st with
  | some st =>
    let transition_hours : ℚ := cfg.transition_minutes / 60
    let morning_start : ℚ := st.sunrise
    let morning_end : ℚ := st.sunrise + transition_hours
    let evening_start : ℚ := st.sunset - transition_hours
    let evening_end : ℚ := st.sunset
    if morning_end ≤ hour ∧ hour < evening_start then
      cfg.day_temp
    else if hour < morning_start ∨ evening_end ≤ hour then
      cfg.night_temp
    else if morning_start ≤ hour ∧ hour < morning_end then
      real_trunc ((cfg.night_temp : ℝ) + ((cfg.day_temp : ℝ) - (cfg.night_temp : ℝ)) *
        _smooth_step (((hour : ℝ) - (morning_start : ℝ)) / (transition_hours : ℝ)))
    else
      real_trunc ((cfg.day_temp : ℝ) + ((cfg.night_temp : ℝ) - (cfg.day_temp : ℝ)) *
        _smooth_step (((hour : ℝ) - (evening_start : ℝ)) / (transition_hours : ℝ)))
  | none => get_temperature_for_time hour cfg.day_temp cfg.night_temp

/-- Embedding of `SundownScheduler._calculate_temperature`: consult
`_get_sun_times` (possibly mutating the cache and invoking the provider),
then compute the target temperature. -/
noncomputable def _calculate_temperature (cfg : Config) (env : Env) (s : State) :
    State × List Event × ℤ :=
  let r := _get_sun_times cfg env s
  (r.1, r.2.1, _calculate_temperature_value cfg env.nowHour r.2.2)

/-- Embedding of `SundownScheduler._apply_temperature(temp)`: when `temp`
differs from `_current_temp` (which may be None), call
`set_color_temperature` (its boolean result is recorded in the event but
ignored by the control flow), set `_current_temp := temp` unconditionally,
and invoke `_on_change(temp)` when an observer is registered; otherwise do
nothing. -/
def _apply_temperature (env : Env) (s : State) (temp : ℤ) : State × List Event :=
  if some temp ≠ s.current_temp then
    ({ s with current_temp := some temp },
      Event.backendApply temp (env.backendOk temp) ::
        (if s.has_observer then [Event.notify temp] else []))
  else (s, [])

/-- Embedding of `SundownScheduler.set_temperature_now(kelvin)`: exactly
`_apply_temperature(kelvin)`, with no check of `_running`. -/
def set_temperature_now (env : Env) (s : State) (kelvin : ℤ) : State × List Event :=
  _apply_temperature env s kelvin

/-- Embedding of `SundownScheduler.start()`: a no-op when already running;
otherwise sets `_running := True` and spawns a daemon thread executing
`_run_loop`. The spawned thread runs asynchronously: `start` itself touches
no other state, and the thread's first action is modelled separately by
`run_loop_first_iteration`. -/
def start (s : State) : State :=
  if s.running then s else { s with running := true }

/-- Embedding of `SundownScheduler.stop()`: clears `_running` (the join of
the thread has no effect on the modelled state). -/
def stop (s : State) : State := { s with running := false }

/-- The first action of `SundownScheduler._run_loop`, executed on the
spawned thread before the first `time.sleep`:
`self._apply_temperature(self._calculate_temperature())`. -/
noncomputable def run_loop_first_iteration (cfg : Config) (env : Env) (s : State) :
    State × List Event :=
  let c := _calculate_temperature cfg env s
  let a := _apply_temperature env c.1 c.2.2
  (a.1, c.2.1 ++ a.2)

/-- Number of sun-event provider invocations recorded in an event list. -/
def providerCalls (evs : List Event) : ℕ :=
  (evs.filter fun e => match e with | Event.providerCall _ => true | _ => false).length

/-- Number of observer notifications recorded in an event list. -/
def notifyCount (evs : List Event) : ℕ :=
  (evs.filter fun e => match e with | Event.notify _ => true | _ => false).length

/-! ### Concrete fixtures used by witnesses and counterexamples -/

/-- A location in a timezone far from the system clock's. -/
def tzAuckland : LocationInfo := { timezone := some "Pacific/Auckland" }

/-- A scheduler configuration with a location (the constructor defaults plus
`tzAuckland`). -/
def cfgLoc : Config :=
  { day_temp := 6500, night_temp := 3400, update_interval := 30
    location := some tzAuckland, transition_minutes := 60 }

/-- A scheduler configuration with no location (the constructor defaults). -/
def cfgNoLoc : Config :=
  { day_temp := 6500, night_temp := 3400, update_interval := 30
    location := none, transition_minutes := 60 }

/-- Sunrise 07:00, sunset 19:00 local. -/
def sunTimesStd : SunTimes := { sunrise := 7, sunset := 19 }

/-- A world where every call to the sun-event provider raises. -/
def envFail : Env :=
  { sysDate := 0, locDate := 0, nowHour := 12
    sun := fun _ => none, backendOk := fun _ => true }

/-- A world observed late in the system-local evening: the system-local
date is day 0, but in the configured location's timezone (far to the
east) the same instant already belongs to day 1. The provider succeeds. -/
def envTz : Env :=
  { sysDate := 0, locDate := 1, nowHour := 23
    sun := fun _ => some sunTimesStd, backendOk := fun _ => true }

/-- A world where the gamma backend reports failure (`False`) on every
apply. -/
def envBackendFails : Env :=
  { sysDate := 0, locDate := 0, nowHour := 12
    sun := fun _ => none, backendOk := fun _ => false }

end Sundown

namespace Sundown

/-! ## Helper lemmas -/

theorem clamp255_div_nonneg (x : ℝ) : 0 ≤ max 0 (min 255 x) / 255 :=
  div_nonneg (le_max_left 0 _) (by norm_num)

theorem clamp255_div_le_one (x : ℝ) : max 0 (min 255 x) / 255 ≤ 1 :=
  (div_le_one (by norm_num)).2 (max_le (by norm_num) (min_le_left 255 x))

/-- `_calculate_temperature` under a provider that raises for today, from a
state with an empty cache: state unchanged, fixed-clock fallback value, one
provider invocation when a location is configured. -/
theorem calculate_temperature_of_sun_failure (cfg : Config) (env : Env) (s : State)
    (hfail : env.sun env.sysDate = none) (hcache : s.sun_cache = none) :
    _calculate_temperature cfg env s =
      (s, (if cfg.location = none then [] else [Event.providerCall env.sysDate]),
        get_temperature_for_time env.nowHour cfg.day_temp cfg.night_temp) := by
  cases hloc : cfg.location <;>
    simp [_calculate_temperature, _get_sun_times, _calculate_temperature_value,
      hloc, hcache, hfail]

/-- `_get_sun_times` on a cache hit: the stored date equals today's
system-local date and the cache is non-None, so the cache is served with no
provider call and no state change. -/
theorem get_sun_times_hit (cfg : Config) (env : Env) (s : State) (l : LocationInfo)
    (hloc : cfg.location = some l)
    (hdate : s.sun_cache_date = some env.sysDate) (hsc : s.sun_cache ≠ none) :
    _get_sun_times cfg env s = (s, [], s.sun_cache) := by
  simp [_get_sun_times, hloc, hdate, hsc]

/-- `_get_sun_times` on a cache miss with a succeeding provider: one
provider call, and the result is cached under today's system-local date. -/
theorem get_sun_times_miss_success (cfg : Config) (env : Env) (s : State)
    (l : LocationInfo) (st : SunTimes) (hloc : cfg.location = some l)
    (hmiss : ¬(s.sun_cache_date = some env.sysDate ∧ s.sun_cache ≠ none))
    (hsun : env.sun env.sysDate = some st) :
    _get_sun_times cfg env s =
      ({ s with sun_cache := some st, sun_cache_date := some env.sysDate },
        [Event.providerCall env.sysDate], some st) := by
  simp [_get_sun_times, hloc, hmiss, hsun]

/-- `_get_sun_times` on a cache miss with a raising provider: one provider
call, no result, no state change. -/
theorem get_sun_times_miss_failure (cfg : Config) (env : Env) (s : State)
    (l : LocationInfo) (hloc : cfg.location = some l)
    (hmiss : ¬(s.sun_cache_date = some env.sysDate ∧ s.sun_cache ≠ none))
    (hsun : env.sun env.sysDate = none) :
    _get_sun_times cfg env s = (s, [Event.providerCall env.sysDate], none) := by
  simp [_get_sun_times, hloc, hmiss, hsun]

/-- After `_apply_temperature env s t`, `_current_temp` holds `t`: it is
overwritten when it differed and already held `t` otherwise. -/
theorem apply_temperature_sets_current (env : Env) (s : State) (t : ℤ) :
    (_apply_temperature env s t).1.current_temp = some t := by
  unfold _apply_temperature
  split_ifs with h h2
  · rfl
  · rfl
  · push_neg at h
    exact h.symm

set_option maxRecDepth 8192 in
/-- Entry formula of `_create_gamma_ramp`: channel `c`, index `i`. -/
theorem create_gamma_ramp_entry (r g b : ℚ) (c i : ℕ) (hc : c < 3) (hi : i < 256) :
    ((_create_gamma_ramp r g b).getD c []).getD i 0 =
      min 65535 (max 0 (int_trunc ((i : ℚ) * 256 * ([r, g, b].getD c 0)))) := by
  have key : ∀ m : ℚ,
      ((List.range 256).map fun j : ℕ =>
        min 65535 (max 0 (int_trunc ((j : ℚ) * 256 * m)))).getD i 0 =
      min 65535 (max 0 (int_trunc ((i : ℚ) * 256 * m))) := by
    intro m
    rw [List.getD_eq_getElem?_getD, List.getElem?_map, List.getElem?_range hi]
    rfl
  interval_cases c
  · exact key r
  · exact key g
  · exact key b

/-! ## Claim theorems -/

/-- C8: for every hour in [0, 24), `get_temperature_for_time` returns
`day_temp` on [8, 18); `night_temp` on [20, 24) ∪ [0, 6); the integer
truncation of `night_temp + (day_temp - night_temp) * (hour - 6)/2` on
[6, 8); and the integer truncation of
`day_temp + (night_temp - day_temp) * (hour - 18)/2` on [18, 20). -/
theorem get_temperature_for_time_cases (hour : ℚ) (day_temp night_temp : ℤ)
    (h0 : 0 ≤ hour) (h24 : hour < 24) :
    ((8 ≤ hour ∧ hour < 18) →
      get_temperature_for_time hour day_temp night_temp = day_temp) ∧
    ((20 ≤ hour ∨ hour < 6) →
      get_temperature_for_time hour day_temp night_temp = night_temp) ∧
    ((6 ≤ hour ∧ hour < 8) →
      get_temperature_for_time hour day_temp night_temp =
        int_trunc ((night_temp : ℚ) + ((day_temp : ℚ) - (night_temp : ℚ)) * ((hour - 6) / 2))) ∧
    ((18 ≤ hour ∧ hour < 20) →
      get_temperature_for_time hour day_temp night_temp =
        int_trunc ((day_temp : ℚ) + ((night_temp : ℚ) - (day_temp : ℚ)) * ((hour - 18) / 2))) := by
  refine ⟨fun h => ?_, fun h => ?_, fun h => ?_, fun h => ?_⟩
  · unfold get_temperature_for_time
    rw [if_pos h]
  · unfold get_temperature_for_time
    rw [if_neg (fun hc => by rcases h with h | h <;> linarith [hc.1, hc.2]),
      if_pos h.symm]
  · unfold get_temperature_for_time
    rw [if_neg (fun hc => by linarith [hc.1, h.2]),
      if_neg (fun hc => by rcases hc with hc | hc <;> linarith [h.1, h.2]),
      if_pos h]
    norm_num
  · unfold get_temperature_for_time
    rw [if_neg (fun hc => by linarith [hc.2, h.1]),
      if_neg (fun hc => by rcases hc with hc | hc <;> linarith [h.1, h.2]),
      if_neg (fun hc => by linarith [hc.2, h.1])]
    norm_num

/-- C8 witness: at hour 7 the morning interpolation applies and yields 4950
for day 6500 / night 3400. -/
theorem get_temperature_for_time_cases_witness :
    0 ≤ (7 : ℚ) ∧ (7 : ℚ) < 24 ∧ get_temperature_for_time 7 6500 3400 = 4950 := by
  refine ⟨by norm_num, by norm_num, ?_⟩
  have h := (get_temperature_for_time_cases 7 6500 3400 (by norm_num) (by norm_num)).2.2.1
    ⟨by norm_num, by norm_num⟩
  rw [h]
  norm_num [int_trunc]

/-- C3: when `temp` differs from `_current_temp`, `_apply_temperature`
invokes the backend exactly once, sets `_current_temp := temp`
unconditionally — the conclusion holds for every `env`, so in particular
when `env.backendOk temp = false` — and fires the registered observer;
when `temp` equals `_current_temp`, none of the three effects occur. -/
theorem apply_temperature_effects (env : Env) (s : State) (temp : ℤ)
    (hobs : s.has_observer = true) :
    (some temp ≠ s.current_temp →
      _apply_temperature env s temp =
        ({ s with current_temp := some temp },
          [Event.backendApply temp (env.backendOk temp), Event.notify temp])) ∧
    (some temp = s.current_temp → _apply_temperature env s temp = (s, [])) := by
  constructor <;> intro h
  · simp [_apply_temperature, h, hobs]
  · simp [_apply_temperature, h.symm]

/-- C3 witness: applying 3000 to a fresh scheduler with an observer, in a
world whose backend reports failure: the backend is called (returning
`false`), `_current_temp` becomes 3000 anyway, and the observer fires. -/
theorem apply_temperature_effects_witness :
    (on_change initState).has_observer = true ∧
    _apply_temperature envBackendFails (on_change initState) 3000 =
      ({ on_change initState with current_temp := some 3000 },
        [Event.backendApply 3000 false, Event.notify 3000]) := by
  refine ⟨rfl, ?_⟩
  have h := (apply_temperature_effects envBackendFails (on_change initState) 3000 rfl).1
    (by decide)
  simpa using h

/-- C9: calling `set_temperature_now T` twice in a row produces exactly one
observer notification: the first call (with `T` different from
`_current_temp`) applies and notifies, the second call is a no-op. -/
theorem set_temperature_now_idempotent (env1 env2 : Env) (s : State) (T : ℤ)
    (hobs : s.has_observer = true) (hdiff : some T ≠ s.current_temp) :
    notifyCount ((set_temperature_now env1 s T).2 ++
      (set_temperature_now env2 (set_temperature_now env1 s T).1 T).2) = 1 ∧
    set_temperature_now env2 (set_temperature_now env1 s T).1 T =
      ((set_temperature_now env1 s T).1, []) := by
  simp [set_temperature_now, _apply_temperature, hdiff, hobs, notifyCount]

/-- C9 witness: two consecutive `set_temperature_now 3000` on a fresh
scheduler with an observer notify exactly once, the second call being a
no-op. -/
theorem set_temperature_now_idempotent_witness :
    notifyCount ((set_temperature_now envFail (on_change initState) 3000).2 ++
      (set_temperature_now envFail
        (set_temperature_now envFail (on_change initState) 3000).1 3000).2) = 1 ∧
    set_temperature_now envFail
      (set_temperature_now envFail (on_change initState) 3000).1 3000 =
      ((set_temperature_now envFail (on_change initState) 3000).1, []) :=
  set_temperature_now_idempotent envFail envFail (on_change initState) 3000 rfl (by decide)

/-- C10: `set_temperature_now` on a scheduler whose `_running` is `False`
performs the full apply path — backend call, `_current_temp` update,
observer notification — and behaves identically to the same call with
`_running = True` (the method never consults `_running`). -/
theorem set_temperature_now_when_stopped (env : Env) (s : State) (T : ℤ)
    (hrun : s.running = false) (hobs : s.has_observer = true)
    (hdiff : some T ≠ s.current_temp) :
    set_temperature_now env s T =
      ({ s with current_temp := some T },
        [Event.backendApply T (env.backendOk T), Event.notify T]) ∧
    (set_temperature_now env { s with running := true } T).2 =
      (set_temperature_now env s T).2 ∧
    (set_temperature_now env { s with running := true } T).1.current_temp =
      (set_temperature_now env s T).1.current_temp := by
  refine ⟨by simp [set_temperature_now, _apply_temperature, hdiff, hobs], ?_, ?_⟩ <;>
    simp [set_temperature_now, _apply_temperature, hdiff, hobs]

/-- C10 witness: `set_temperature_now 3000` on a never-started scheduler
with an observer applies, updates and notifies exactly as when running. -/
theorem set_temperature_now_when_stopped_witness :
    (on_change initState).running = false ∧
    set_temperature_now envFail (on_change initState) 3000 =
      ({ on_change initState with current_temp := some 3000 },
        [Event.backendApply 3000 true, Event.notify 3000]) := by
  refine ⟨rfl, ?_⟩
  have h := (set_temperature_now_when_stopped envFail (on_change initState) 3000 rfl rfl
    (by decide)).1
  simpa using h

/-- C5: when the sun-event provider fails on every invocation and the cache
is empty (as it is from construction on, since a failing provider never
fills it), `_calculate_temperature` returns exactly the fixed-clock value
`get_temperature_for_time` at the current fractional hour — the function is
total, so no error reaches the caller — and it leaves the state untouched,
so the next cycle repeats the provider lookup fresh (one `providerCall`
event is emitted whenever a location is configured): the fallback is not
sticky. -/
theorem sun_failure_falls_back (cfg : Config) (env : Env) (s : State)
    (hfail : ∀ d, env.sun d = none) (hcache : s.sun_cache = none) :
    _calculate_temperature cfg env s =
      (s, (if cfg.location = none then [] else [Event.providerCall env.sysDate]),
        get_temperature_for_time env.nowHour cfg.day_temp cfg.night_temp) :=
  calculate_temperature_of_sun_failure cfg env s (hfail env.sysDate) hcache

/-- C5 witness: with a location configured and a provider that always
raises, a fresh scheduler computes the fixed-clock value for hour 12 and
records one provider invocation. -/
theorem sun_failure_falls_back_witness :
    _calculate_temperature cfgLoc envFail initState =
      (initState, [Event.providerCall 0], 6500) := by
  have h := sun_failure_falls_back cfgLoc envFail initState (fun d => rfl) rfl
  rw [h]
  have hv : get_temperature_for_time envFail.nowHour cfgLoc.day_temp cfgLoc.night_temp
      = 6500 := by
    norm_num [get_temperature_for_time, envFail, cfgLoc]
  rw [hv]
  simp [cfgLoc, envFail, tzAuckland]

/-- C6 counterexample: the claim says two sun-relative computations within
the same calendar date invoke the provider at most once; but when the
provider raises, nothing is cached, so two consecutive calls on the same
date invoke it twice. -/
theorem sun_provider_invoked_twice_same_day :
    providerCalls ((_calculate_temperature cfgLoc envFail initState).2.1 ++
      (_calculate_temperature cfgLoc envFail
        (_calculate_temperature cfgLoc envFail initState).1).2.1) = 2 := by
  have h := calculate_temperature_of_sun_failure cfgLoc envFail initState rfl rfl
  rw [h]
  have h2 := calculate_temperature_of_sun_failure cfgLoc envFail initState rfl rfl
  rw [h2]
  norm_num [cfgLoc, providerCalls, List.filter]

/-- C6 amended: when the provider invocation for the current date succeeds,
two consecutive sun-relative computations on the same system-local calendar
date invoke the provider at most once (the successful result is cached);
after the date rolls over, the next computation invokes it again. On
provider failure nothing is cached and the lookup is repeated. -/
theorem sun_provider_at_most_once_on_success (cfg : Config) (env1 env2 : Env)
    (s : State) (st : SunTimes) (hsucc : env1.sun env1.sysDate = some st) :
    (env2.sysDate = env1.sysDate →
      providerCalls ((_calculate_temperature cfg env1 s).2.1 ++
        (_calculate_temperature cfg env2
          (_calculate_temperature cfg env1 s).1).2.1) ≤ 1) ∧
    (env2.sysDate ≠ env1.sysDate → cfg.location ≠ none →
      providerCalls (_calculate_temperature cfg env2
        (_calculate_temperature cfg env1 s).1).2.1 = 1) := by
  have hcs1 : (_calculate_temperature cfg env1 s).1 = (_get_sun_times cfg env1 s).1 := rfl
  have hce1 : (_calculate_temperature cfg env1 s).2.1 = (_get_sun_times cfg env1 s).2.1 := rfl
  cases hloc : cfg.location with
  | none =>
    refine ⟨fun _ => ?_, fun _ hl => absurd rfl hl⟩
    simp [_calculate_temperature, _get_sun_times, hloc, providerCalls]
  | some l =>
    by_cases hhit : s.sun_cache_date = some env1.sysDate ∧ s.sun_cache ≠ none
    · have e1 : _get_sun_times cfg env1 s = (s, [], s.sun_cache) :=
        get_sun_times_hit cfg env1 s l hloc hhit.1 hhit.2
      refine ⟨fun hsame => ?_, fun hdiff hl => ?_⟩
      · have hhit2 : s.sun_cache_date = some env2.sysDate ∧ s.sun_cache ≠ none := by
          rw [hsame]
          exact hhit
        have e2 : _get_sun_times cfg env2 s = (s, [], s.sun_cache) :=
          get_sun_times_hit cfg env2 s l hloc hhit2.1 hhit2.2
        have hce2 : (_calculate_temperature cfg env2 s).2.1
            = (_get_sun_times cfg env2 s).2.1 := rfl
        rw [hce1, hcs1, e1, hce2, e2]
        simp [providerCalls]
      · have hmiss2 : ¬(s.sun_cache_date = some env2.sysDate ∧ s.sun_cache ≠ none) := by
          intro hc
          exact hdiff (Option.some.inj (hhit.1.symm.trans hc.1)).symm
        have hce2 : (_calculate_temperature cfg env2 s).2.1
            = (_get_sun_times cfg env2 s).2.1 := rfl
        rw [hcs1, e1, hce2]
        cases hs2 : env2.sun env2.sysDate with
        | some st2 =>
          rw [get_sun_times_miss_success cfg env2 s l st2 hloc hmiss2 hs2]
          simp [providerCalls, List.filter]
        | none =>
          rw [get_sun_times_miss_failure cfg env2 s l hloc hmiss2 hs2]
          simp [providerCalls, List.filter]
    · have e1 : _get_sun_times cfg env1 s =
          ({ s with sun_cache := some st, sun_cache_date := some env1.sysDate },
            [Event.providerCall env1.sysDate], some st) :=
        get_sun_times_miss_success cfg env1 s l st hloc hhit hsucc
      set s1 : State :=
        { s with sun_cache := some st, sun_cache_date := some env1.sysDate } with hs1
      refine ⟨fun hsame => ?_, fun hdiff hl => ?_⟩
      · have hhit2 : s1.sun_cache_date = some env2.sysDate ∧ s1.sun_cache ≠ none := by
          rw [hsame, hs1]
          exact ⟨rfl, by simp⟩
        have e2 : _get_sun_times cfg env2 s1 = (s1, [], s1.sun_cache) :=
          get_sun_times_hit cfg env2 s1 l hloc hhit2.1 hhit2.2
        have hce2 : (_calculate_temperature cfg env2 s1).2.1
            = (_get_sun_times cfg env2 s1).2.1 := rfl
        rw [hce1, hcs1, e1, hce2, e2]
        simp [providerCalls, List.filter]
      · have hmiss2 : ¬(s1.sun_cache_date = some env2.sysDate ∧ s1.sun_cache ≠ none) := by
          intro hc
          have hd : s1.sun_cache_date = some env1.sysDate := by
            rw [hs1]
          exact hdiff (Option.some.inj (hd.symm.trans hc.1)).symm
        have hce2 : (_calculate_temperature cfg env2 s1).2.1
            = (_get_sun_times cfg env2 s1).2.1 := rfl
        rw [hcs1, e1, hce2]
        cases hs2 : env2.sun env2.sysDate with
        | some st2 =>
          rw [get_sun_times_miss_success cfg env2 s1 l st2 hloc hmiss2 hs2]
          simp [providerCalls, List.filter]
        | none =>
          rw [get_sun_times_miss_failure cfg env2 s1 l hloc hmiss2 hs2]
          simp [providerCalls, List.filter]

/-- C6 amended witness: with a provider that succeeds, two computations on
the same date invoke the provider at most once. -/
theorem sun_provider_at_most_once_on_success_witness :
    providerCalls ((_calculate_temperature cfgLoc envTz initState).2.1 ++
      (_calculate_temperature cfgLoc envTz
        (_calculate_temperature cfgLoc envTz initState).1).2.1) ≤ 1 :=
  (sun_provider_at_most_once_on_success cfgLoc envTz envTz initState sunTimesStd rfl).1 rfl

/-- C2 counterexample: in `envTz` the system-local date is day 0 while the
same instant in the configured location's timezone already belongs to
day 1. After one lookup the cache is present but stamped with day 0 — not
"today" in the location's timezone — and a second lookup at the same
instant serves that cached value with no provider call, i.e. across the
location-timezone date boundary. -/
theorem sun_cache_date_not_location_timezone :
    (_get_sun_times cfgLoc envTz initState).1.sun_cache = some sunTimesStd ∧
    (_get_sun_times cfgLoc envTz initState).1.sun_cache_date = some 0 ∧
    envTz.locDate = 1 ∧
    _get_sun_times cfgLoc envTz (_get_sun_times cfgLoc envTz initState).1 =
      ((_get_sun_times cfgLoc envTz initState).1, [],
        (_get_sun_times cfgLoc envTz initState).1.sun_cache) := by
  have e1 : _get_sun_times cfgLoc envTz initState =
      ({ initState with sun_cache := some sunTimesStd, sun_cache_date := some 0 },
        [Event.providerCall 0], some sunTimesStd) :=
    get_sun_times_miss_success cfgLoc envTz initState tzAuckland sunTimesStd rfl
      (by simp [initState]) rfl
  rw [e1]
  refine ⟨rfl, rfl, rfl, ?_⟩
  exact get_sun_times_hit cfgLoc envTz _ tzAuckland rfl rfl (by simp)

/-- C2 amended: the sun-event cache is keyed by the *system-local* calendar
date (`datetime.now().date()`), not the date in
`config.location.timezoneName`. The cache is served only when its stored
date equals the current system-local date; on any mismatch the provider is
re-invoked, and a successful result is stamped with the system-local date.
(A cached value can therefore be served across a date boundary of the
location's timezone, as long as the system-local date has not changed.) -/
theorem sun_cache_keyed_by_system_date (cfg : Config) (env : Env) (s : State)
    (l : LocationInfo) (hloc : cfg.location = some l) :
    ((s.sun_cache_date = some env.sysDate ∧ s.sun_cache ≠ none) →
      _get_sun_times cfg env s = (s, [], s.sun_cache)) ∧
    (¬(s.sun_cache_date = some env.sysDate ∧ s.sun_cache ≠ none) →
      Event.providerCall env.sysDate ∈ (_get_sun_times cfg env s).2.1 ∧
      ∀ st, env.sun env.sysDate = some st →
        (_get_sun_times cfg env s).1.sun_cache = some st ∧
        (_get_sun_times cfg env s).1.sun_cache_date = some env.sysDate) := by
  refine ⟨fun hhit => get_sun_times_hit cfg env s l hloc hhit.1 hhit.2, fun hmiss => ?_⟩
  constructor
  · cases hs : env.sun env.sysDate with
    | some st =>
      rw [get_sun_times_miss_success cfg env s l st hloc hmiss hs]
      simp
    | none =>
      rw [get_sun_times_miss_failure cfg env s l hloc hmiss hs]
      simp
  · intro st hs
    rw [get_sun_times_miss_success cfg env s l st hloc hmiss hs]
    exact ⟨rfl, rfl⟩

/-- C2 amended witness: a fresh scheduler in `envTz` misses the cache,
invokes the provider, and stamps the cache with the system-local date. -/
theorem sun_cache_keyed_by_system_date_witness :
    Event.providerCall envTz.sysDate ∈ (_get_sun_times cfgLoc envTz initState).2.1 ∧
    (_get_sun_times cfgLoc envTz initState).1.sun_cache_date = some envTz.sysDate := by
  have h := (sun_cache_keyed_by_system_date cfgLoc envTz initState tzAuckland rfl).2
    (by simp [initState])
  exact ⟨h.1, (h.2 sunTimesStd rfl).2⟩

/-- C1 counterexample: `start()` returns with `_current_temp` still `None`.
The initial apply is the first action of `_run_loop`, which executes on the
spawned daemon thread; in the interleaving where that thread has not yet
run when `start()` returns, `get_current_temperature()` observed
immediately after `start()` is `None`, contradicting the claim that the
value is applied synchronously before `start()` returns. -/
theorem start_returns_before_first_apply :
    (start initState).running = true ∧ (start initState).current_temp = none :=
  ⟨rfl, rfl⟩

/-- C1 amended: `start()` on a stopped scheduler only sets `_running` and
spawns the loop thread — it leaves `_current_temp` untouched; the loop's
first action, before its first sleep, computes and applies the target
temperature, so `_current_temp` holds the freshly computed value once the
loop's first iteration has run (but not necessarily at the instant
`start()` returns). -/
theorem start_spawns_loop_applying_first (cfg : Config) (env : Env) (s : State)
    (hrun : s.running = false) :
    (start s).running = true ∧
    (start s).current_temp = s.current_temp ∧
    (run_loop_first_iteration cfg env (start s)).1.current_temp =
      some (_calculate_temperature cfg env (start s)).2.2 := by
  have hst : start s = { s with running := true } := by simp [start, hrun]
  exact ⟨by rw [hst], by rw [hst],
    apply_temperature_sets_current env (_calculate_temperature cfg env (start s)).1
      (_calculate_temperature cfg env (start s)).2.2⟩

/-- C1 amended witness: a fresh scheduler with no location: `start` leaves
`_current_temp` at `None`, and the loop's first iteration fills it. -/
theorem start_spawns_loop_applying_first_witness :
    initState.running = false ∧
    (start initState).current_temp = initState.current_temp ∧
    (run_loop_first_iteration cfgNoLoc envFail (start initState)).1.current_temp =
      some (_calculate_temperature cfgNoLoc envFail (start initState)).2.2 := by
  have h := start_spawns_loop_applying_first cfgNoLoc envFail initState rfl
  exact ⟨rfl, h.2.1, h.2.2⟩

/-- C7: for every kelvin in [1000, 10000], `kelvin_to_rgb` returns exactly
three components, each in [0.0, 1.0] (the unclamped branches return the
constants 1.0 or 0.0, and every other branch clamps to [0, 255] before
dividing by 255), and along the branches actually taken `math.log` is only
ever applied to strictly positive arguments. -/
theorem kelvin_to_rgb_range_and_log_safe (k : ℕ) (h1 : 1000 ≤ k) (h2 : k ≤ 10000) :
    (0 ≤ (kelvin_to_rgb k).1 ∧ (kelvin_to_rgb k).1 ≤ 1) ∧
    (0 ≤ (kelvin_to_rgb k).2.1 ∧ (kelvin_to_rgb k).2.1 ≤ 1) ∧
    (0 ≤ (kelvin_to_rgb k).2.2 ∧ (kelvin_to_rgb k).2.2 ≤ 1) ∧
    (∀ x ∈ kelvin_to_rgb_logArgs k, 0 < x) := by
  refine ⟨⟨?_, ?_⟩, ⟨?_, ?_⟩, ⟨?_, ?_⟩, ?_⟩
  case _ | _ | _ | _ | _ | _ =>
    simp only [kelvin_to_rgb]
    split_ifs <;>
      first
        | exact clamp255_div_nonneg _
        | exact clamp255_div_le_one _
        | norm_num
  · intro x hx
    simp only [kelvin_to_rgb_logArgs, List.mem_append] at hx
    rcases hx with hx | hx
    · split_ifs at hx with ha hb
      · simp only [List.mem_singleton] at hx
        subst hx
        linarith
      · simp at hx
      · simp at hx
    · split_ifs at hx with ha hb
      · simp at hx
      · simp at hx
      · simp only [List.mem_singleton] at hx
        subst hx
        push_neg at hb
        linarith

/-- C7 witness: at 6500 K the red component lies in [0, 1], with the range
hypotheses discharged concretely. -/
theorem kelvin_to_rgb_range_and_log_safe_witness :
    (1000 : ℕ) ≤ 6500 ∧ (6500 : ℕ) ≤ 10000 ∧
    0 ≤ (kelvin_to_rgb 6500).1 ∧ (kelvin_to_rgb 6500).1 ≤ 1 := by
  have h := kelvin_to_rgb_range_and_log_safe 6500 (by norm_num) (by norm_num)
  exact ⟨by norm_num, by norm_num, h.1.1, h.1.2⟩

/-- C4 counterexample: the claim's formula rounds, but the code truncates.
For the in-range multiplier 3/500 = 0.006 at channel 0, index 1, the code
computes `int(1 * 256 * 0.006) = int(1.536) = 1` while the spec's formula
gives `clamp(round(1 * (65536/256) * 0.006)) = round(1.536) = 2`. (The
source also hardcodes the table size 256; no size parameter exists.) -/
theorem create_gamma_ramp_truncates_not_rounds :
    ((_create_gamma_ramp (3/500) 0 0).getD 0 []).getD 1 0 = 1 ∧
    buildRamp_spec_entry (3/500) 256 1 = 2 ∧
    ((_create_gamma_ramp (3/500) 0 0).getD 0 []).getD 1 0 ≠
      buildRamp_spec_entry (3/500) 256 1 ∧
    (0 : ℚ) ≤ 3/500 ∧ (3/500 : ℚ) ≤ 1 := by
  have he : ((_create_gamma_ramp (3/500) 0 0).getD 0 []).getD 1 0 = 1 := by
    rw [create_gamma_ramp_entry (3/500) 0 0 0 1 (by norm_num) (by norm_num)]
    norm_num [int_trunc, List.getD]
  have hs : buildRamp_spec_entry (3/500) 256 1 = 2 := by
    norm_num [buildRamp_spec_entry, round_eq]
  exact ⟨he, hs, by rw [he, hs]; norm_num, by norm_num, by norm_num⟩

/-- C4 amended: the table size is fixed at 256 (no size parameter exists),
and for every multiplier triple with components in [0.0, 1.0], channel
`c < 3` and index `i < 256`, the ramp entry equals
`clamp(trunc(i * 256 * rgb[c]), 0, 65535)` — truncation toward zero, not
rounding. -/
theorem create_gamma_ramp_formula (r g b : ℚ)
    (hr : 0 ≤ r ∧ r ≤ 1) (hg : 0 ≤ g ∧ g ≤ 1) (hb : 0 ≤ b ∧ b ≤ 1)
    (c i : ℕ) (hc : c < 3) (hi : i < 256) :
    ((_create_gamma_ramp r g b).getD c []).getD i 0 =
      min 65535 (max 0 (int_trunc ((i : ℚ) * 256 * ([r, g, b].getD c 0)))) :=
  create_gamma_ramp_entry r g b c i hc hi

/-- C4 amended witness: channel 0, index 2, all multipliers 1. -/
theorem create_gamma_ramp_formula_witness :
    (0 : ℚ) ≤ 1 ∧ (0 : ℕ) < 3 ∧ (2 : ℕ) < 256 ∧
    ((_create_gamma_ramp 1 1 1).getD 0 []).getD 2 0 =
      min 65535 (max 0 (int_trunc ((2 : ℚ) * 256 * ([(1 : ℚ), 1, 1].getD 0 0)))) :=
  ⟨by norm_num, by norm_num, by norm_num,
    create_gamma_ramp_formula 1 1 1 ⟨by norm_num, by norm_num⟩ ⟨by norm_num, by norm_num⟩
      ⟨by norm_num, by norm_num⟩ 0 2 (by norm_num) (by norm_num)⟩

end Sundown
